import Mathlib

/-!
Verification of the fetch-coordination and staleness-management subsystem of
the devops-with-kubernetes project service (src/project/app.go).

The Go code is shallowly embedded: the `App` struct becomes `AppState`,
`GetImage` becomes the pure function `getImage` (time.Now passed in as `now`,
the disk read result passed in as `readResult`), `retryWithFibonacci`
becomes a recursion over the remaining attempt count that also records the
sleep durations, `fetchImage` and `saveImage` become pure functions over the
outcome of their I/O effects, and the background fetcher goroutine together
with concurrent request handlers becomes an interleaving transition system
(`stepSys` / `runSys`) whose events are the lock-protected atomic sections
of the Go code.

Time instants are natural numbers (Go time.Time; 0 plays the role of the
zero value tested by IsZero, which is before every real instant). Durations
are natural numbers of nanoseconds, matching Go time.Duration for the
non-negative durations the program uses; `oneSecond` is time.Second. Ages
are integers (`now - fetchedAt`), matching the signed Go time.Duration
produced by time.Since. Go errors are `Option String` (none is the nil
error).
-/

namespace DwkProject

/-- One nanosecond-per-unit second, the value of Go time.Second. -/
def oneSecond : Nat := 1000000000

/-- The mutable and configuration fields of the Go App struct
(src/project/app.go lines 44-56). The HeartbeatChan, a channel with buffer
size one, is modelled by the boolean `heartbeatPending` (true when a signal
is buffered). The mutex is implicit: every embedded operation is one
lock-protected atomic section. -/
structure AppState where
  imagePath : String
  backendImageUrl : String
  imageFetchedFromBackendAt : Nat
  imageLastServedAt : Nat
  isGracePeriodUsed : Bool
  gracePeriod : Nat
  maxAge : Nat
  isFetchingImageFromBackend : Bool
  fetchImageTimeout : Nat
  heartbeatPending : Bool
deriving Repr, DecidableEq

/-- The HTTP response produced by GetImage: status code, and the served
bytes when the status is 200. -/
structure ServeResponse where
  status : Nat
  body : Option String
deriving Repr, DecidableEq

/-- The NewApp constructor (app.go lines 64-76): config fields set, all
state fields at their Go zero values. -/
def mkApp (path url : String) (maxAge gracePeriod fetchTimeout : Nat) : AppState :=
  { imagePath := path
    backendImageUrl := url
    imageFetchedFromBackendAt := 0
    imageLastServedAt := 0
    isGracePeriodUsed := false
    gracePeriod := gracePeriod
    maxAge := maxAge
    isFetchingImageFromBackend := false
    fetchImageTimeout := fetchTimeout
    heartbeatPending := false }

/-- The tail of GetImage from the comment at app.go line 160 onward: record
the serve time, reset the grace flag when the image is not too old, read the
image from disk (500 on failure), else serve the bytes with 200. -/
def serveCached (app : AppState) (now : Nat) (age : Int) (readResult : Option String) :
    ServeResponse × AppState :=
  let app1 : AppState := { app with imageLastServedAt := now }
  let app2 : AppState :=
    if age ≤ (app1.maxAge : Int) then { app1 with isGracePeriodUsed := false } else app1
  match readResult with
  | none => (⟨500, none⟩, app2)
  | some data => (⟨200, some data⟩, app2)

/-- The GetImage handler (app.go lines 120-181). `now` is the value of
time.Now, `readResult` the outcome of readImage (none = read error). The
returned state is the App after the handler releases its lock. -/
def getImage (app : AppState) (now : Nat) (readResult : Option String) :
    ServeResponse × AppState :=
  if app.imageFetchedFromBackendAt = 0 then
    (⟨503, none⟩, app)
  else
    let age : Int := (now : Int) - (app.imageFetchedFromBackendAt : Int)
    if app.isFetchingImageFromBackend then
      if age > (app.maxAge : Int) + (app.gracePeriod : Int) then
        (⟨503, none⟩, app)
      else if age > (app.maxAge : Int) ∧ age ≤ (app.maxAge : Int) + (app.gracePeriod : Int) then
        if !app.isGracePeriodUsed then
          serveCached { app with isGracePeriodUsed := true } now age readResult
        else
          (⟨503, none⟩, app)
      else
        serveCached app now age readResult
    else
      serveCached app now age readResult

/-- The triple returned by one fetch attempt function passed to
retryWithFibonacci: HTTP-ish status, suggested wait duration, error
(app.go line 320). -/
structure AttemptOutcome where
  status : Nat
  wait : Nat
  err : Option String
deriving Repr, DecidableEq

/-- The possible return values of retryWithFibonacci. `ok` is the nil
return on status 200; `nonRetryable e` is the `return err` of the default
switch branch; `allRetriesFailed e` is the final fmt.Errorf wrapping
`lastErr` (which is still the nil error when no attempt recorded one). The
context is modelled as never cancelled, so the two ctx branches of the Go
code do not fire. -/
inductive RetryResult where
  | ok : RetryResult
  | nonRetryable : Option String → RetryResult
  | allRetriesFailed : Option String → RetryResult
deriving Repr, DecidableEq

/-- The loop body of retryWithFibonacci (app.go lines 313-352), recursing
on the number of remaining attempts. `fn i` is the outcome of attempt
number `i` (0-based). `fib0 fib1 fib2` are the three cells of the fib
array; `lastErr` the recorded last retryable error; `sleeps` accumulates
the waited durations in reverse. The Go switch has empty bodies (and Go has
no implicit fallthrough) for `case 429` and `case 666`, so both continue
the loop without touching lastErr; only `case 503` stores the error; every
status outside {200, 429, 503, 666} returns the error immediately. -/
def retryLoop (fn : Nat → AttemptOutcome) (i : Nat) (remaining : Nat)
    (fib0 fib1 fib2 : Nat) (lastErr : Option String) (sleeps : List Nat) :
    RetryResult × List Nat :=
  match remaining with
  | 0 => (.allRetriesFailed lastErr, sleeps.reverse)
  | r + 1 =>
    let a := fn i
    if a.status = 200 then
      (.ok, sleeps.reverse)
    else if a.status = 429 ∨ a.status = 503 ∨ a.status = 666 then
      let lastErr1 := if a.status = 503 then a.err else lastErr
      -- wait := max(waitDuration, fib[2]); then
      -- fib[2] = fib[0] + fib[1]; fib[0] = fib[1]; fib[1] = fib[2]
      let wait := max a.wait fib2
      retryLoop fn (i + 1) r fib1 (fib0 + fib1) (fib0 + fib1) lastErr1 (wait :: sleeps)
    else
      (.nonRetryable a.err, sleeps.reverse)

/-- retryWithFibonacci (app.go lines 308-356). Returns the result together
with the list of sleep durations performed between attempts (and after the
final failed attempt, as in the Go loop). The fib array starts as
[0, time.Second, time.Second]. -/
def retryWithFibonacci (maxRetries : Nat) (fn : Nat → AttemptOutcome) :
    RetryResult × List Nat :=
  retryLoop fn 0 maxRetries 0 oneSecond oneSecond none []

/-- Whether retryWithFibonacci treats an outcome as retryable: not a
success, and one of the statuses whose switch case continues the loop. -/
def retryableOutcome (a : AttemptOutcome) : Bool :=
  a.status ≠ 200 ∧ (a.status = 429 ∨ a.status = 503 ∨ a.status = 666)

/-- What happens on the wire during the single HTTP GET of fetchImage:
a timeout (context.DeadlineExceeded), some other network error, or an HTTP
response with a status code, an already-parsed Retry-After value in seconds
(none when the header is absent or unparseable) and a body. -/
inductive HttpAttempt where
  | timeout : String → HttpAttempt
  | netError : String → HttpAttempt
  | response : Nat → Option Nat → String → HttpAttempt
deriving Repr, DecidableEq

/-- fetchImage (app.go lines 382-417) as a function of the wire outcome and
of the SaveImageFunc result used on status 200. A timeout is reported as
status 503 with zero wait; any other network error as the custom status 666
with zero wait; 200 hands the body to the store and carries its error; 429
and 503 carry the parsed Retry-After as the suggested wait and the sentinel
error http.ErrMissingFile; every other status carries zero wait and the
same sentinel error. -/
def fetchImage (attempt : HttpAttempt) (saveResult : Option String) : AttemptOutcome :=
  match attempt with
  | .timeout e => ⟨503, 0, some e⟩
  | .netError e => ⟨666, 0, some e⟩
  | .response code retryAfterSeconds _ =>
    if code = 200 then
      ⟨200, 0, saveResult⟩
    else if code = 429 ∨ code = 503 then
      let wait := match retryAfterSeconds with
        | some s => s * oneSecond
        | none => 0
      ⟨code, wait, some "http.ErrMissingFile"⟩
    else
      ⟨code, 0, some "http.ErrMissingFile"⟩

/-- The slice of the filesystem saveImage touches: the contents of the
canonical image file and of the temp file it creates next to it (none =
the file does not exist). -/
structure FsState where
  canonical : Option String
  temp : Option String
deriving Repr, DecidableEq

/-- saveImage (app.go lines 424-452) as a function of the filesystem slice
and of the outcome of each fallible step: whether CreateTemp succeeds,
what io.Copy delivers (none = copy error, after possibly writing a partial
prefix `partial1` to the temp file), and whether the final Rename succeeds.
The two defers (Close, then Remove of the temp name) run on every exit path
after creation; after a successful rename the Remove of the already-moved
temp name fails silently, so the temp is gone on every exit. -/
def saveImage (fs : FsState) (createTempOk : Bool)
    (copyResult : Option String) (partial1 : String) (renameOk : Bool) :
    Option String × FsState :=
  if createTempOk = false then
    (some "CreateTemp failed", fs)
  else
    -- temp file created empty
    let fs1 : FsState := { fs with temp := some "" }
    match copyResult with
    | none =>
      -- copy error after writing a partial prefix; defers remove the temp
      let fs2 : FsState := { fs1 with temp := some partial1 }
      (some "Copy failed", { fs2 with temp := none })
    | some body =>
      let fs2 : FsState := { fs1 with temp := some body }
      if renameOk = false then
        (some "Rename failed", { fs2 with temp := none })
      else
        -- rename moves the temp over the canonical path; the deferred
        -- Remove of the temp name then finds nothing and is ignored
        (none, { canonical := some body, temp := none })

/-- The outcome of one os.Stat call as LoadCachedImage consumes it: success
carrying the modification time, a does-not-exist error, or any other
error. -/
inductive StatOutcome where
  | ok : Nat → StatOutcome
  | notExist : StatOutcome
  | otherErr : String → StatOutcome
deriving Repr, DecidableEq

/-- LoadCachedImage (app.go lines 79-111) as a function of the two Stat
outcomes (directory, then file). Returns (imageAvailable, err) and the
updated App: when the file exists its modification time seeds
imageFetchedFromBackendAt and the grace flag is cleared. -/
def loadCachedImage (app : AppState) (dirStat : StatOutcome) (fileStat : StatOutcome) :
    (Bool × Option String) × AppState :=
  match dirStat with
  | .notExist => ((false, some "dir stat failed"), app)
  | .otherErr e => ((false, some e), app)
  | .ok _ =>
    match fileStat with
    | .notExist => ((false, none), app)
    | .otherErr e => ((false, some e), app)
    | .ok modTime =>
      ((true, none),
       { app with imageFetchedFromBackendAt := modTime, isGracePeriodUsed := false })

/-- Program counter of the background fetcher goroutine started by
StartBackgroundImageFetcher: between taking a heartbeat and finishing the
fetch it is `fetching`, otherwise `idle` waiting on the channel. -/
inductive LoopPC where
  | idle : LoopPC
  | fetching : LoopPC
deriving Repr, DecidableEq

/-- Global state of the interleaving model: the shared App, the fetcher
goroutine program counter, and the number of backend fetches currently in
flight (what the counting mock backend of the spec would observe). -/
structure SysState where
  app : AppState
  loopPC : LoopPC
  fetchesInFlight : Nat
deriving Repr, DecidableEq

/-- The atomic events of the system. `serve` is one GetImage call under the
lock; `heartbeat` is a delivery into the buffered HeartbeatChan (ticker or
manual); `loopStart` is the fetcher goroutine taking a pending heartbeat
and setting IsFetchingImageFromBackend (app.go lines 241-246), which is
when the backend fetch begins; `loopFinish success now` is the fetch
completing with or without error and the goroutine writing back its state
(app.go lines 274-278: IsFetchingImageFromBackend := false,
ImageFetchedFromBackendAt := now, IsGracePeriodUsed := false, regardless of
the error). -/
inductive SysEvent where
  | serve : Nat → Option String → SysEvent
  | heartbeat : SysEvent
  | loopStart : SysEvent
  | loopFinish : Bool → Nat → SysEvent
deriving Repr, DecidableEq

/-- One atomic step of the interleaving model. Events whose guard does not
hold (a loopStart with no pending heartbeat or with the goroutine busy, a
loopFinish with no fetch in progress) cannot occur in the Go program and
leave the state unchanged. -/
def stepSys (s : SysState) (e : SysEvent) : SysState :=
  match e with
  | .serve now readResult => { s with app := (getImage s.app now readResult).2 }
  | .heartbeat => { s with app := { s.app with heartbeatPending := true } }
  | .loopStart =>
    if s.loopPC = .idle ∧ s.app.heartbeatPending = true then
      { app := { s.app with heartbeatPending := false, isFetchingImageFromBackend := true }
        loopPC := .fetching
        fetchesInFlight := s.fetchesInFlight + 1 }
    else s
  | .loopFinish _ now =>
    if s.loopPC = .fetching then
      { app := { s.app with
                  isFetchingImageFromBackend := false
                  imageFetchedFromBackendAt := now
                  isGracePeriodUsed := false }
        loopPC := .idle
        fetchesInFlight := s.fetchesInFlight - 1 }
    else s

/-- Run the interleaving model over a list of events. -/
def runSys (s : SysState) (evs : List SysEvent) : SysState :=
  evs.foldl stepSys s

/-- System state at startup, after StartBackgroundImageFetcher has run
LoadCachedImage and launched the (idle) fetcher goroutine. -/
def initSys (app : AppState) (dirStat fileStat : StatOutcome) : SysState :=
  { app := (loadCachedImage app dirStat fileStat).2
    loopPC := .idle
    fetchesInFlight := 0 }

/-!
Theorems. Claim C1 and C2 counterexamples use a concrete App with
maxAge = 10, gracePeriod = 5, fetchedAt = 1.
-/

/-- C1 counterexample: with the image fetched once (fetchedAt = 1), no
fetch in flight, and age 99 far beyond maxAge + gracePeriod = 15, GetImage
serves the cached bytes with 200, not 503: the claimed hard cutoff does not
apply when no fetch is in flight. -/
theorem c1_expired_not_fetching_serves_200 :
    (let app : AppState :=
      { mkApp "img.jpg" "http://backend" 10 5 3 with imageFetchedFromBackendAt := 1 };
     app.imageFetchedFromBackendAt ≠ 0
       ∧ app.isFetchingImageFromBackend = false
       ∧ (100 : Int) - (app.imageFetchedFromBackendAt : Int) >
           (app.maxAge : Int) + (app.gracePeriod : Int)
       ∧ (getImage app 100 (some "img")).1.status = 200
       ∧ (getImage app 100 (some "img")).1.status ≠ 503) := by
  decide

/-- C1 amended: when the image has been fetched at least once, a fetch is
in flight, and the age exceeds maxAge + gracePeriod, GetImage returns 503
regardless of the grace flag; the cutoff holds only while a fetch is in
flight. -/
theorem c1_expired_while_fetching_returns_503 (app : AppState) (now : Nat)
    (readResult : Option String)
    (h1 : app.imageFetchedFromBackendAt ≠ 0)
    (h2 : app.isFetchingImageFromBackend = true)
    (h3 : (now : Int) - (app.imageFetchedFromBackendAt : Int) >
            (app.maxAge : Int) + (app.gracePeriod : Int)) :
    (getImage app now readResult).1.status = 503 := by
  simp [getImage, h1, h2, h3]

/-- C1 witness: the amended theorem applied to a concrete expired state
with a fetch in flight. -/
theorem c1_expired_while_fetching_returns_503_witness :
    (getImage
      { mkApp "img.jpg" "http://backend" 10 5 3 with
          imageFetchedFromBackendAt := 1, isFetchingImageFromBackend := true }
      100 (some "img")).1.status = 503 :=
  c1_expired_while_fetching_returns_503 _ 100 (some "img")
    (by decide) (by decide) (by decide)

/-- C2 counterexample: with fetchedAt = 1, maxAge = 10, gracePeriod = 5 and
now = 13 the age is 12, inside the stale window, but no fetch is in flight:
the first GetImage call returns 200 yet leaves gracePeriodUsed false (the
claim says it is set to true), and a second call still returns 200 (the
claim says every subsequent call returns 503). -/
theorem c2_stale_not_fetching_no_grace_latch :
    (let app : AppState :=
      { mkApp "img.jpg" "http://backend" 10 5 3 with imageFetchedFromBackendAt := 1 };
     let call1 := getImage app 13 (some "img");
     (app.maxAge : Int) < (13 : Int) - (app.imageFetchedFromBackendAt : Int)
       ∧ (13 : Int) - (app.imageFetchedFromBackendAt : Int) ≤
           (app.maxAge : Int) + (app.gracePeriod : Int)
       ∧ call1.1.status = 200
       ∧ call1.2.isGracePeriodUsed = false
       ∧ (getImage call1.2 13 (some "img")).1.status = 200) := by
  decide

/-- C2 amended: the grace exactly-once behaviour holds while a fetch is in
flight. In the stale window (maxAge < age ≤ maxAge + gracePeriod) with a
fetch in flight and a successful disk read, a call that finds
gracePeriodUsed false returns 200 and sets it true, and a call that finds
it true returns 503 and leaves the state unchanged; with no fetch in
flight, GetImage neither latches the flag nor returns 503. -/
theorem c2_grace_exactly_once_while_fetching (app : AppState) (now : Nat) (data : String)
    (h1 : app.imageFetchedFromBackendAt ≠ 0)
    (h2 : app.isFetchingImageFromBackend = true)
    (h3 : (app.maxAge : Int) < (now : Int) - (app.imageFetchedFromBackendAt : Int))
    (h4 : (now : Int) - (app.imageFetchedFromBackendAt : Int) ≤
            (app.maxAge : Int) + (app.gracePeriod : Int)) :
    (app.isGracePeriodUsed = false →
        (getImage app now (some data)).1.status = 200
          ∧ (getImage app now (some data)).2.isGracePeriodUsed = true)
      ∧ (app.isGracePeriodUsed = true →
        (getImage app now (some data)).1.status = 503
          ∧ (getImage app now (some data)).2 = app) := by
  have h5 : ¬((now : Int) - (app.imageFetchedFromBackendAt : Int) >
      (app.maxAge : Int) + (app.gracePeriod : Int)) := by omega
  have h6 : ¬((now : Int) - (app.imageFetchedFromBackendAt : Int) ≤ (app.maxAge : Int)) := by
    omega
  constructor
  · intro hflag
    simp [getImage, serveCached, h1, h2, h3, h4, h5, h6, hflag]
  · intro hflag
    simp [getImage, serveCached, h1, h2, h3, h4, h5, h6, hflag]

/-- C2 witness: the amended theorem applied to a concrete stale state with
a fetch in flight, grace flag initially false. -/
theorem c2_grace_exactly_once_while_fetching_witness :
    ((let app : AppState :=
        { mkApp "img.jpg" "http://backend" 10 5 3 with
            imageFetchedFromBackendAt := 1, isFetchingImageFromBackend := true };
      (getImage app 13 (some "img")).1.status = 200
        ∧ (getImage app 13 (some "img")).2.isGracePeriodUsed = true)) :=
  (c2_grace_exactly_once_while_fetching _ 13 "img"
    (by decide) (by decide) (by decide) (by decide)).1 (by decide)

/-- C9: whenever no fetch is in flight and the image has been fetched at
least once, GetImage serves the cached bytes with 200, whatever the age and
the grace flag, provided the disk read succeeds. -/
theorem c9_not_fetching_serves_cached (app : AppState) (now : Nat) (data : String)
    (h1 : app.imageFetchedFromBackendAt ≠ 0)
    (h2 : app.isFetchingImageFromBackend = false) :
    (getImage app now (some data)).1.status = 200
      ∧ (getImage app now (some data)).1.body = some data := by
  simp only [getImage, serveCached, h1, h2]
  split <;> simp_all

/-- C9 witness: a concrete very old image with the grace flag already used
and no fetch in flight is still served with 200. -/
theorem c9_not_fetching_serves_cached_witness :
    ((getImage
        { mkApp "img.jpg" "http://backend" 10 5 3 with
            imageFetchedFromBackendAt := 1, isGracePeriodUsed := true }
        1000 (some "img")).1.status = 200
      ∧ (getImage
        { mkApp "img.jpg" "http://backend" 10 5 3 with
            imageFetchedFromBackendAt := 1, isGracePeriodUsed := true }
        1000 (some "img")).1.body = some "img") :=
  c9_not_fetching_serves_cached _ 1000 "img" (by decide) (by decide)

/-- C10: GetImage mutates at most ImageLastServedAt and IsGracePeriodUsed:
every other App field — the fetch timestamp, the fetch-in-flight flag, the
configuration fields, and the heartbeat channel (so no backend fetch is
ever initiated by serving) — is returned unchanged. -/
theorem c10_get_image_frame (app : AppState) (now : Nat) (readResult : Option String) :
    (getImage app now readResult).2.imageFetchedFromBackendAt = app.imageFetchedFromBackendAt
      ∧ (getImage app now readResult).2.isFetchingImageFromBackend =
          app.isFetchingImageFromBackend
      ∧ (getImage app now readResult).2.imagePath = app.imagePath
      ∧ (getImage app now readResult).2.backendImageUrl = app.backendImageUrl
      ∧ (getImage app now readResult).2.maxAge = app.maxAge
      ∧ (getImage app now readResult).2.gracePeriod = app.gracePeriod
      ∧ (getImage app now readResult).2.fetchImageTimeout = app.fetchImageTimeout
      ∧ (getImage app now readResult).2.heartbeatPending = app.heartbeatPending := by
  cases readResult <;> simp only [getImage, serveCached] <;> split_ifs <;> simp

/-- Value of the fib[2] cell after j retryable iterations, starting from
cells (a, b, b): the backoff used before the (j+1)-st retry. -/
def fibCell (a b : Nat) : Nat → Nat
  | 0 => b
  | j + 1 => fibCell b (a + b) j

theorem fibCell_fib (s : Nat) (j k : Nat) :
    fibCell (Nat.fib k * s) (Nat.fib (k + 1) * s) j = Nat.fib (k + 1 + j) * s := by
  induction j generalizing k with
  | zero => rfl
  | succ j ih =>
    have hsum : Nat.fib k * s + Nat.fib (k + 1) * s = Nat.fib (k + 2) * s := by
      rw [← Nat.add_mul, ← Nat.fib_add_two]
    calc fibCell (Nat.fib k * s) (Nat.fib (k + 1) * s) (j + 1)
        = fibCell (Nat.fib (k + 1) * s) (Nat.fib k * s + Nat.fib (k + 1) * s) j := rfl
      _ = fibCell (Nat.fib (k + 1) * s) (Nat.fib (k + 1 + 1) * s) j := by rw [hsum]
      _ = Nat.fib (k + 1 + 1 + j) * s := ih (k + 1)
      _ = Nat.fib (k + 1 + (j + 1)) * s := by ring_nf

theorem retryLoop_sleeps (r : Nat) : ∀ (fn : Nat → AttemptOutcome) (i a b : Nat)
    (lastErr : Option String) (sleeps : List Nat),
    (∀ j, j < r → retryableOutcome (fn (i + j)) = true) →
    (retryLoop fn i r a b b lastErr sleeps).2
      = sleeps.reverse ++ (List.range r).map (fun j => max (fn (i + j)).wait (fibCell a b j)) := by
  induction r with
  | zero => intro fn i a b lastErr sleeps _; simp [retryLoop]
  | succ r ih =>
    intro fn i a b lastErr sleeps h
    have h0 : retryableOutcome (fn (i + 0)) = true := h 0 (Nat.succ_pos r)
    have h0a : (fn i).status ≠ 200 ∧
        ((fn i).status = 429 ∨ (fn i).status = 503 ∨ (fn i).status = 666) := by
      have := h0
      simp only [retryableOutcome, Nat.add_zero, decide_eq_true_eq, Bool.decide_and,
        Bool.and_eq_true, decide_eq_true_eq, Bool.decide_or, Bool.or_eq_true] at this ⊢
      tauto
    have hrec : (∀ j, j < r → retryableOutcome (fn (i + 1 + j)) = true) := by
      intro j hj
      have := h (j + 1) (Nat.succ_lt_succ hj)
      have harith : i + (j + 1) = i + 1 + j := by omega
      rwa [harith] at this
    have step : retryLoop fn i (r + 1) a b b lastErr sleeps
        = retryLoop fn (i + 1) r b (a + b) (a + b)
            (if (fn i).status = 503 then (fn i).err else lastErr)
            (max (fn i).wait b :: sleeps) := by
      simp only [retryLoop, if_neg h0a.1, if_pos h0a.2]
    rw [step, ih fn (i + 1) b (a + b) _ _ hrec]
    rw [List.range_succ_eq_map, List.map_cons, List.reverse_cons, List.append_assoc]
    simp only [List.singleton_append, Nat.add_zero, List.map_map]
    congr 1
    congr 1
    apply List.map_congr_left
    intro j _
    simp only [Function.comp]
    have harith : i + Nat.succ j = i + 1 + j := by omega
    rw [harith]
    rfl

theorem fibCell_map_eq (fn : Nat → AttemptOutcome) (m : Nat) :
    (List.range m).map (fun j => max (fn (0 + j)).wait (fibCell 0 oneSecond j))
      = (List.range m).map (fun j => max (fn j).wait (Nat.fib (j + 1) * oneSecond)) := by
  apply List.map_congr_left
  intro j _
  have hcell : fibCell 0 oneSecond j = Nat.fib (j + 1) * oneSecond := by
    have h3 := fibCell_fib oneSecond j 0
    rw [Nat.fib_zero, Nat.fib_one, Nat.zero_mul, Nat.one_mul, Nat.zero_add,
      Nat.add_comm 1 j] at h3
    exact h3
  rw [Nat.zero_add, hcell]

theorem retryLoop_success (k : Nat) : ∀ (fn : Nat → AttemptOutcome) (i a b r : Nat)
    (lastErr : Option String) (sleeps : List Nat),
    k < r →
    (∀ j, j < k → retryableOutcome (fn (i + j)) = true) →
    (fn (i + k)).status = 200 →
    retryLoop fn i r a b b lastErr sleeps
      = (RetryResult.ok,
         sleeps.reverse ++ (List.range k).map (fun j => max (fn (i + j)).wait (fibCell a b j))) := by
  induction k with
  | zero =>
    intro fn i a b r lastErr sleeps hlt _ hok
    obtain ⟨r1, rfl⟩ : ∃ r1, r = r1 + 1 := ⟨r - 1, by omega⟩
    rw [Nat.add_zero] at hok
    simp [retryLoop, hok]
  | succ k ih =>
    intro fn i a b r lastErr sleeps hlt h hok
    obtain ⟨r1, rfl⟩ : ∃ r1, r = r1 + 1 := ⟨r - 1, by omega⟩
    have h0 : retryableOutcome (fn (i + 0)) = true := h 0 (Nat.succ_pos k)
    have h0a : (fn i).status ≠ 200 ∧
        ((fn i).status = 429 ∨ (fn i).status = 503 ∨ (fn i).status = 666) := by
      have := h0
      simp only [retryableOutcome, Nat.add_zero, decide_eq_true_eq, Bool.decide_and,
        Bool.and_eq_true, decide_eq_true_eq, Bool.decide_or, Bool.or_eq_true] at this ⊢
      tauto
    have hrec : (∀ j, j < k → retryableOutcome (fn (i + 1 + j)) = true) := by
      intro j hj
      have := h (j + 1) (Nat.succ_lt_succ hj)
      have harith : i + (j + 1) = i + 1 + j := by omega
      rwa [harith] at this
    have hok2 : (fn (i + 1 + k)).status = 200 := by
      have harith : i + 1 + k = i + (k + 1) := by omega
      rwa [harith]
    have step : retryLoop fn i (r1 + 1) a b b lastErr sleeps
        = retryLoop fn (i + 1) r1 b (a + b) (a + b)
            (if (fn i).status = 503 then (fn i).err else lastErr)
            (max (fn i).wait b :: sleeps) := by
      simp only [retryLoop, if_neg h0a.1, if_pos h0a.2]
    rw [step, ih fn (i + 1) b (a + b) r1 _ _ (by omega) hrec hok2]
    rw [List.range_succ_eq_map, List.map_cons, List.reverse_cons, List.append_assoc]
    simp only [List.singleton_append, Nat.add_zero, List.map_map]
    refine congrArg _ ?_
    congr 1
    congr 1
    apply List.map_congr_left
    intro j _
    simp only [Function.comp]
    have harith : i + Nat.succ j = i + 1 + j := by omega
    rw [harith]
    rfl

/-- C5: the retry driver sleeps max(backend-suggested wait, Fibonacci
backoff) between attempts, the backoff sequence being fib(1), fib(2), ...
seconds = 1, 1, 2, 3, 5, 8, ...: stated for every all-retryable run and for
every run of k retryable attempts followed by a success. In particular a
backend answering 503 for the first 3 attempts and 200 on the fourth makes
the driver succeed after sleeping 1s, 1s, 2s, and a backend-supplied
Retry-After of 120 seconds makes the next wait at least 120s. -/
theorem c5_fibonacci_backoff_and_retry_after :
    (∀ (n : Nat) (fn : Nat → AttemptOutcome),
        (∀ j, j < n → retryableOutcome (fn j) = true) →
        (retryWithFibonacci n fn).2
          = (List.range n).map (fun j => max (fn j).wait (Nat.fib (j + 1) * oneSecond)))
      ∧ (∀ (n k : Nat) (fn : Nat → AttemptOutcome),
          k < n →
          (∀ j, j < k → retryableOutcome (fn j) = true) →
          (fn k).status = 200 →
          retryWithFibonacci n fn
            = (RetryResult.ok,
               (List.range k).map (fun j => max (fn j).wait (Nat.fib (j + 1) * oneSecond))))
      ∧ retryWithFibonacci 5
          (fun j => if j < 3 then ⟨503, 0, some "service unavailable"⟩ else ⟨200, 0, none⟩)
          = (.ok, [oneSecond, oneSecond, 2 * oneSecond])
      ∧ 120 * oneSecond ≤
          ((retryWithFibonacci 5
              (fun _ => ⟨503, 120 * oneSecond, some "service unavailable"⟩)).2.headD 0) := by
  refine ⟨?_, ?_, by rfl, by norm_num [retryWithFibonacci, retryLoop, oneSecond]⟩
  · intro n fn h
    have h2 : ∀ j, j < n → retryableOutcome (fn (0 + j)) = true := by
      intro j hj
      rw [Nat.zero_add]
      exact h j hj
    rw [retryWithFibonacci, retryLoop_sleeps n fn 0 0 oneSecond none [] h2]
    simp only [List.reverse_nil, List.nil_append]
    exact fibCell_map_eq fn n
  · intro n k fn hk h hok
    have h2 : ∀ j, j < k → retryableOutcome (fn (0 + j)) = true := by
      intro j hj
      rw [Nat.zero_add]
      exact h j hj
    have hok2 : (fn (0 + k)).status = 200 := by rwa [Nat.zero_add]
    rw [retryWithFibonacci, retryLoop_success k fn 0 0 oneSecond n none [] hk h2 hok2]
    simp only [List.reverse_nil, List.nil_append]
    exact congrArg (Prod.mk RetryResult.ok) (fibCell_map_eq fn k)

/-- C5 witness: the general conjunct applied to two all-retryable attempts
with no suggested wait gives sleeps fib(1) and fib(2) seconds. -/
theorem c5_fibonacci_backoff_and_retry_after_witness :
    (retryWithFibonacci 2 (fun _ => ⟨503, 0, some "service unavailable"⟩)).2
      = (List.range 2).map
          (fun j => max (⟨503, 0, some "service unavailable"⟩ : AttemptOutcome).wait
            (Nat.fib (j + 1) * oneSecond)) :=
  c5_fibonacci_backoff_and_retry_after.1 2
    (fun _ => ⟨503, 0, some "service unavailable"⟩)
    (fun _ _ =>
      (by decide : retryableOutcome ⟨503, 0, some "service unavailable"⟩ = true))

/-- C3: the code, evaluated at a run whose every attempt is a non-timeout
network error (the sentinel status 666 produced by fetchImage). The claim
says the retry driver returns that error immediately with no further
attempts; the code instead retries status 666 (its switch case has an empty
body, which in Go does not fall through to the default return), sleeps the
full backoff sequence, and finally returns the all-retries-failed error
wrapping the nil error rather than the network error. -/
theorem c3_net_error_is_retried_not_returned :
    fetchImage (.netError "dial tcp: lookup failed") none
        = ⟨666, 0, some "dial tcp: lookup failed"⟩
      ∧ retryWithFibonacci 5 (fun _ => fetchImage (.netError "dial tcp: lookup failed") none)
          = (.allRetriesFailed none,
             [oneSecond, oneSecond, 2 * oneSecond, 3 * oneSecond, 5 * oneSecond]) := by
  constructor
  · rfl
  · decide

/-- C6: the code, evaluated at a run whose maxAttempts = 3 attempts all
fail with the retryable status 429 carrying a non-nil error. The claim says
the returned all-retries-failed error wraps the last retryable error seen;
the code never records the error of a 429 attempt (its switch case has an
empty body and does not fall through to the 503 case), so the returned
error wraps the nil error instead. -/
theorem c6_all_429_run_wraps_nil_error :
    retryableOutcome ⟨429, 0, some "too many requests"⟩ = true
      ∧ retryWithFibonacci 3 (fun _ => ⟨429, 0, some "too many requests"⟩)
          = (.allRetriesFailed none, [oneSecond, oneSecond, 2 * oneSecond]) := by
  decide

/-- C7: whenever saveImage fails at any step — temp-file creation, body
copy, or rename — the temp file is absent afterwards (CreateTemp picks a
fresh name, so it does not exist before the call: hypothesis h0) and the
canonical file keeps its prior contents. -/
theorem c7_save_failure_keeps_canonical (fs : FsState) (createTempOk : Bool)
    (copyResult : Option String) (partial1 : String) (renameOk : Bool)
    (h0 : fs.temp = none)
    (h : (saveImage fs createTempOk copyResult partial1 renameOk).1 ≠ none) :
    (saveImage fs createTempOk copyResult partial1 renameOk).2.temp = none
      ∧ (saveImage fs createTempOk copyResult partial1 renameOk).2.canonical = fs.canonical := by
  cases createTempOk <;> cases copyResult <;> cases renameOk <;>
    simp_all [saveImage]

/-- C7 witness: a copy failure after a partial write removes the temp file
and leaves the previous canonical contents in place. -/
theorem c7_save_failure_keeps_canonical_witness :
    ((saveImage ⟨some "old", none⟩ true none "partial bytes" true).2.temp = none
      ∧ (saveImage ⟨some "old", none⟩ true none "partial bytes" true).2.canonical
          = some "old") :=
  c7_save_failure_keeps_canonical ⟨some "old", none⟩ true none "partial bytes" true
    (by decide) (by decide)

/-- Inductive invariant for single-flight: the in-flight count is exactly
one while the fetcher goroutine is between taking a heartbeat and
finishing, zero otherwise. -/
def flightInv (s : SysState) : Prop :=
  s.fetchesInFlight = (if s.loopPC = LoopPC.fetching then 1 else 0)

theorem stepSys_flightInv (s : SysState) (e : SysEvent) (h : flightInv s) :
    flightInv (stepSys s e) := by
  cases e <;> simp only [stepSys, flightInv] at h ⊢ <;> split <;> simp_all

theorem runSys_flightInv (evs : List SysEvent) : ∀ (s : SysState), flightInv s →
    flightInv (runSys s evs) := by
  induction evs with
  | nil => intro s h; exact h
  | cons e evs ih =>
    intro s h
    exact ih (stepSys s e) (stepSys_flightInv s e h)

/-- C8: single-flight. From the startup state, whatever interleaving of
GetImage calls, heartbeat deliveries, fetch starts and fetch completions
occurs, at most one backend fetch is ever in flight: the fetcher goroutine
is the only consumer of the heartbeat channel and performs the fetch
synchronously before looping. -/
theorem c8_single_flight (app : AppState) (dirStat fileStat : StatOutcome)
    (evs : List SysEvent) :
    (runSys (initSys app dirStat fileStat) evs).fetchesInFlight ≤ 1 := by
  have h0 : flightInv (initSys app dirStat fileStat) := by
    simp [flightInv, initSys]
  have h1 := runSys_flightInv evs _ h0
  rw [flightInv] at h1
  rw [h1]
  split <;> omega

theorem getImage_flag_set (app : AppState) (now : Nat) (readResult : Option String)
    (h : (getImage app now readResult).2.isGracePeriodUsed = true) :
    app.isGracePeriodUsed = true
      ∨ (app.isFetchingImageFromBackend = true
          ∧ app.isGracePeriodUsed = false
          ∧ (app.maxAge : Int) < (now : Int) - (app.imageFetchedFromBackendAt : Int)
          ∧ (now : Int) - (app.imageFetchedFromBackendAt : Int) ≤
              (app.maxAge : Int) + (app.gracePeriod : Int)) := by
  by_cases hz : app.imageFetchedFromBackendAt = 0
  · left; simpa [getImage, hz] using h
  · by_cases hf : app.isFetchingImageFromBackend = true
    · by_cases hexp : (now : Int) - (app.imageFetchedFromBackendAt : Int) >
          (app.maxAge : Int) + (app.gracePeriod : Int)
      · left; simpa [getImage, hz, hf, hexp] using h
      · by_cases hwin : (app.maxAge : Int) < (now : Int) - (app.imageFetchedFromBackendAt : Int)
        · by_cases hused : app.isGracePeriodUsed = true
          · left; exact hused
          · right
            refine ⟨hf, by simpa using hused, hwin, by omega⟩
        · left
          have hle : (now : Int) - (app.imageFetchedFromBackendAt : Int) ≤ (app.maxAge : Int) :=
            by omega
          simp only [getImage, serveCached, hz, hf, if_neg hz] at h
          simp only [if_true, if_neg hexp] at h
          rw [if_neg (by omega :
            ¬((now : Int) - (app.imageFetchedFromBackendAt : Int) > (app.maxAge : Int)
              ∧ (now : Int) - (app.imageFetchedFromBackendAt : Int) ≤
                  (app.maxAge : Int) + (app.gracePeriod : Int)))] at h
          rw [if_pos hle] at h
          cases readResult <;> simp_all
    · have hf2 : app.isFetchingImageFromBackend = false := by
        cases hb : app.isFetchingImageFromBackend
        · rfl
        · exact absurd hb hf
      by_cases hle : (now : Int) - (app.imageFetchedFromBackendAt : Int) ≤ (app.maxAge : Int)
      · exfalso
        simp only [getImage, serveCached, if_neg hz, hf2] at h
        simp only [Bool.false_eq_true, if_false, if_pos hle] at h
        cases readResult <;> simp_all
      · left
        simp only [getImage, serveCached, if_neg hz, hf2] at h
        simp only [Bool.false_eq_true, if_false, if_neg hle] at h
        cases readResult <;> simp_all

theorem getImage_flag_clear (app : AppState) (now : Nat) (readResult : Option String)
    (h1 : app.isGracePeriodUsed = true)
    (h2 : (getImage app now readResult).2.isGracePeriodUsed = false) :
    (now : Int) - (app.imageFetchedFromBackendAt : Int) ≤ (app.maxAge : Int) := by
  by_contra hgt
  by_cases hz : app.imageFetchedFromBackendAt = 0
  · simp [getImage, hz, h1] at h2
  · by_cases hf : app.isFetchingImageFromBackend = true
    · by_cases hexp : (now : Int) - (app.imageFetchedFromBackendAt : Int) >
          (app.maxAge : Int) + (app.gracePeriod : Int)
      · simp [getImage, hz, hf, hexp, h1] at h2
      · have hwin : (app.maxAge : Int) < (now : Int) - (app.imageFetchedFromBackendAt : Int)
            ∧ (now : Int) - (app.imageFetchedFromBackendAt : Int) ≤
                (app.maxAge : Int) + (app.gracePeriod : Int) := by omega
        simp [getImage, hz, hf, hexp, hwin, h1] at h2
    · have hf2 : app.isFetchingImageFromBackend = false := by
        cases hb : app.isFetchingImageFromBackend
        · rfl
        · exact absurd hb hf
      have hle : ¬((now : Int) - (app.imageFetchedFromBackendAt : Int) ≤ (app.maxAge : Int)) := by
        omega
      simp only [getImage, serveCached, if_neg hz, hf2] at h2
      simp only [Bool.false_eq_true, if_false, if_neg hle] at h2
      cases readResult <;> simp_all

/-- C4 counterexample: from the startup state (cache hydrated, fetchedAt 1,
maxAge 10, gracePeriod 5), the run heartbeat, fetch start, grace serve at
age 12 reaches a reachable state whose grace flag is true; the fetch then
completing with failure (loopFinish false) resets the flag to false, which
the claim says only a successful fetch or a return to Fresh may do. -/
theorem c4_failed_fetch_resets_grace_flag :
    (let s1 := runSys (initSys (mkApp "img.jpg" "http://backend" 10 5 3) (.ok 0) (.ok 1))
        [.heartbeat, .loopStart, .serve 13 (some "img")];
     s1.app.isGracePeriodUsed = true
       ∧ (stepSys s1 (SysEvent.loopFinish false 20)).app.isGracePeriodUsed = false) := by
  decide

/-- C4 amended: the grace flag becomes true only through a GetImage call in
the stale window while a fetch is in flight that found it false (hence at
most once per staleness window), and it is cleared exactly by a fetch
completion — successful or failed — or by a GetImage call that observes
age ≤ maxAge (Fresh); the startup cache load never sets it. -/
theorem c4_grace_flag_transitions (s : SysState) (e : SysEvent) :
    ((stepSys s e).app.isGracePeriodUsed = true →
        s.app.isGracePeriodUsed = true
          ∨ ∃ now readResult, e = SysEvent.serve now readResult
              ∧ s.app.isFetchingImageFromBackend = true
              ∧ s.app.isGracePeriodUsed = false
              ∧ (s.app.maxAge : Int) < (now : Int) - (s.app.imageFetchedFromBackendAt : Int)
              ∧ (now : Int) - (s.app.imageFetchedFromBackendAt : Int) ≤
                  (s.app.maxAge : Int) + (s.app.gracePeriod : Int))
      ∧ (s.app.isGracePeriodUsed = true → (stepSys s e).app.isGracePeriodUsed = false →
          (∃ success now, e = SysEvent.loopFinish success now)
            ∨ ∃ now readResult, e = SysEvent.serve now readResult
                ∧ (now : Int) - (s.app.imageFetchedFromBackendAt : Int) ≤ (s.app.maxAge : Int))
      ∧ (∀ (app : AppState) (dirStat fileStat : StatOutcome),
          (loadCachedImage app dirStat fileStat).2.isGracePeriodUsed = true →
            app.isGracePeriodUsed = true
              ∧ (loadCachedImage app dirStat fileStat).2.imageFetchedFromBackendAt =
                  app.imageFetchedFromBackendAt) := by
  refine ⟨?_, ?_, ?_⟩
  · intro h
    cases e with
    | serve now readResult =>
      rcases getImage_flag_set s.app now readResult h with h1 | h1
      · left; exact h1
      · right; exact ⟨now, readResult, rfl, h1.1, h1.2.1, h1.2.2.1, h1.2.2.2⟩
    | heartbeat => left; simpa [stepSys] using h
    | loopStart =>
      left
      simp only [stepSys] at h
      split at h <;> simp_all
    | loopFinish success now =>
      left
      simp only [stepSys] at h
      split at h <;> simp_all
  · intro h1 h2
    cases e with
    | serve now readResult =>
      right
      exact ⟨now, readResult, rfl, getImage_flag_clear s.app now readResult h1 h2⟩
    | heartbeat => simp [stepSys, h1] at h2
    | loopStart =>
      exfalso
      simp only [stepSys] at h2
      split at h2 <;> simp_all
    | loopFinish success now => left; exact ⟨success, now, rfl⟩
  · intro app dirStat fileStat h
    cases dirStat <;> cases fileStat <;> simp_all [loadCachedImage]

/-- C4 amended witness: the set-direction applied at a concrete stale-window
grace serve while a fetch is in flight. -/
theorem c4_grace_flag_transitions_witness :
    (let s : SysState :=
      { app := { mkApp "img.jpg" "http://backend" 10 5 3 with
                  imageFetchedFromBackendAt := 1, isFetchingImageFromBackend := true }
        loopPC := LoopPC.fetching
        fetchesInFlight := 1 };
     s.app.isGracePeriodUsed = true
       ∨ ∃ now readResult, (SysEvent.serve 13 (some "img")) = SysEvent.serve now readResult
           ∧ s.app.isFetchingImageFromBackend = true
           ∧ s.app.isGracePeriodUsed = false
           ∧ (s.app.maxAge : Int) < (now : Int) - (s.app.imageFetchedFromBackendAt : Int)
           ∧ (now : Int) - (s.app.imageFetchedFromBackendAt : Int) ≤
               (s.app.maxAge : Int) + (s.app.gracePeriod : Int)) :=
  (c4_grace_flag_transitions _ (SysEvent.serve 13 (some "img"))).1 (by decide)

end DwkProject
